import Mathlib

/-!
Shallow embedding of the business routes of the bottle_crush backend
(src/app/routes/business.py) together with the parts of the data model
they touch.  Database state is passed explicitly; each route handler is a
pure function from its inputs and the database state to a result and the
resulting database state.  Strings, byte lists and natural-number ids
model the Python values.
-/

namespace BottleCrush

/-- Modelled from the spec: app/models.py is not under src.  A persisted
user row, with the columns the routes in business.py read or write
(id, email, password, role, created_by, updated_by). -/
structure User where
  id : Nat
  email : String
  password : String
  role : String
  created_by : Nat
  updated_by : Nat
  deriving Repr, DecidableEq

/-- A Python datetime value, as far as isoformat needs it. -/
structure PyDatetime where
  year : Nat
  month : Nat
  day : Nat
  hour : Nat
  minute : Nat
  second : Nat
  microsecond : Nat
  deriving Repr, DecidableEq

def pad2 (n : Nat) : String :=
  if n < 10 then "0" ++ toString n else toString n

def pad4 (n : Nat) : String :=
  if n < 10 then "000" ++ toString n
  else if n < 100 then "00" ++ toString n
  else if n < 1000 then "0" ++ toString n
  else toString n

def pad6 (n : Nat) : String :=
  if n < 10 then "00000" ++ toString n
  else if n < 100 then "0000" ++ toString n
  else if n < 1000 then "000" ++ toString n
  else if n < 10000 then "00" ++ toString n
  else if n < 100000 then "0" ++ toString n
  else toString n

/-- datetime.isoformat(): YYYY-MM-DDTHH:MM:SS, with a .ffffff suffix
exactly when the microsecond field is nonzero. -/
def PyDatetime.isoformat (d : PyDatetime) : String :=
  pad4 d.year ++ "-" ++ pad2 d.month ++ "-" ++ pad2 d.day ++ "T" ++
    pad2 d.hour ++ ":" ++ pad2 d.minute ++ ":" ++ pad2 d.second ++
    (if d.microsecond == 0 then "" else "." ++ pad6 d.microsecond)

/-- Modelled from the spec: app/models.py is not under src.  A persisted
business row with the columns business.py reads or writes: id, name,
mobile, optional binary logo, business_owner (FK to User.id), audit ids
and timestamps. -/
structure Business where
  id : Nat
  name : String
  mobile : String
  logo_image : Option (List Nat)
  business_owner : Nat
  created_by : Nat
  updated_by : Nat
  created_at : PyDatetime
  updated_at : PyDatetime
  deriving Repr, DecidableEq

/-- The database state seen by the routes: the two tables plus the
autoincrement counters that produce fresh primary keys. -/
structure DB where
  users : List User
  businesses : List Business
  nextUserId : Nat
  nextBusinessId : Nat
  deriving Repr, DecidableEq

/-- The authenticated caller as the role_required / get_current_user
dependencies hand it to the handler: a dict with id and role. -/
structure CurrentUser where
  id : Nat
  role : String
  deriving Repr, DecidableEq

/-- The user JSON form field, parsed.  create_business only reads the
email and password keys; a role key may be present but is never read. -/
structure UserData where
  email : String
  password : String
  role : Option String
  deriving Repr, DecidableEq

/-- The business JSON form field, parsed.  create_business reads the
name and mobile keys. -/
structure BusinessData where
  name : String
  mobile : String
  deriving Repr, DecidableEq

/-- str(e) for a starlette HTTPException: "{status_code}: {detail}". -/
def httpExcStr (code : Nat) (detail : String) : String :=
  toString code ++ ": " ++ detail

/-- db.query(User).filter(User.email == email).first() -/
def findUserByEmail (email : String) (us : List User) : Option User :=
  us.find? (fun u => u.email == email)

/-- db.query(User).filter(User.id == uid).first() -/
def findUserById (uid : Nat) (us : List User) : Option User :=
  us.find? (fun u => u.id == uid)

/-- db.query(Business).filter(Business.name == name).first() -/
def findBusinessByName (name : String) (bs : List Business) : Option Business :=
  bs.find? (fun b => b.name == name)

/-- db.query(Business).filter(Business.id == bid).first() -/
def findBusinessById (bid : Nat) (bs : List Business) : Option Business :=
  bs.find? (fun b => b.id == bid)

/-- Result of the create_business endpoint: the JSONResponse with the two
ids, or an HTTPException with status and detail. -/
inductive CBResult where
  | ok (business_id : Nat) (user_id : Nat)
  | err (status : Nat) (detail : String)
  deriving Repr, DecidableEq

/-- Base64 alphabet, as in RFC 4648 / Python base64.b64encode. -/
def b64Alphabet : List Char :=
  [ 'A', 'B', 'C', 'D', 'E', 'F', 'G', 'H', 'I', 'J', 'K', 'L', 'M',
    'N', 'O', 'P', 'Q', 'R', 'S', 'T', 'U', 'V', 'W', 'X', 'Y', 'Z',
    'a', 'b', 'c', 'd', 'e', 'f', 'g', 'h', 'i', 'j', 'k', 'l', 'm',
    'n', 'o', 'p', 'q', 'r', 's', 't', 'u', 'v', 'w', 'x', 'y', 'z',
    '0', '1', '2', '3', '4', '5', '6', '7', '8', '9', '+', '/' ]

def b64Char (n : Nat) : Char :=
  b64Alphabet.getD n 'A'

/-- Base64-encode a byte list, three bytes at a time, padding with '='. -/
def b64EncodeList : List Nat → List Char
  | [] => []
  | [b0] =>
      [b64Char (b0 / 4), b64Char (b0 % 4 * 16), '=', '=']
  | [b0, b1] =>
      [b64Char (b0 / 4), b64Char (b0 % 4 * 16 + b1 / 16),
       b64Char (b1 % 16 * 4), '=']
  | b0 :: b1 :: b2 :: rest =>
      b64Char (b0 / 4) :: b64Char (b0 % 4 * 16 + b1 / 16) ::
      b64Char (b1 % 16 * 4 + b2 / 64) :: b64Char (b2 % 64) ::
      b64EncodeList rest

/-- base64.b64encode(bs).decode("utf-8") -/
def b64encode (bs : List Nat) : String :=
  String.mk (b64EncodeList bs)

/-- Step 4 of create_business: build the Business row with the next fresh
id, commit it, and return the JSONResponse with both ids. -/
def commitBusiness (bd : BusinessData) (logoBin : Option (List Nat))
    (owner : User) (db : DB) (cu : CurrentUser) (now : PyDatetime) :
    CBResult × DB :=
  let b : Business :=
    { id := db.nextBusinessId
      name := bd.name
      mobile := bd.mobile
      logo_image := logoBin
      business_owner := owner.id
      created_by := cu.id
      updated_by := cu.id
      created_at := now
      updated_at := now }
  (CBResult.ok b.id owner.id,
   { db with businesses := db.businesses ++ [b],
             nextBusinessId := db.nextBusinessId + 1 })

/-- The create_business handler.  `obd` and `oud` are the two JSON form
fields after json.loads (`none` models malformed JSON), `logo` the
optional uploaded file content, `now` the commit timestamp the ORM
defaults supply.  Mirrors the four steps of the source: the user
lookup-or-commit happens first; a duplicate business name raises a 400
HTTPException that the surrounding `except Exception` catches and
re-raises as a 500; an oversized logo raises a 400 that the surrounding
`except Exception` re-wraps, still as a 400. -/
def create_business (obd : Option BusinessData) (oud : Option UserData)
    (logo : Option (List Nat)) (db : DB) (cu : CurrentUser)
    (now : PyDatetime) : CBResult × DB :=
  match obd, oud with
  | none, _ => (CBResult.err 400 ("Invalid JSON data"), db)
  | some _, none => (CBResult.err 400 ("Invalid JSON data"), db)
  | some bd, some ud =>
    let step1 : User × DB :=
      match findUserByEmail ud.email db.users with
      | some u => (u, db)
      | none =>
        let u : User :=
          { id := db.nextUserId
            email := ud.email
            password := ud.password
            role := "t_customer"
            created_by := cu.id
            updated_by := cu.id }
        (u, { db with users := db.users ++ [u],
                      nextUserId := db.nextUserId + 1 })
    let newUser := step1.1
    let db1 := step1.2
    match findBusinessByName bd.name db1.businesses with
    | some _ =>
        (CBResult.err 500 ("Error checking business: " ++
           httpExcStr 400 ("Business with this name already exists")), db1)
    | none =>
      match logo with
      | some bs =>
        if bs.length > 5 * 1024 * 1024 then
          (CBResult.err 400 ("Error reading file: " ++
             httpExcStr 400 ("File is too large")), db1)
        else
          commitBusiness bd (some bs) newUser db1 cu now
      | none => commitBusiness bd none newUser db1 cu now

/-- The JSON body get_business returns (no business_owner field, per the
explicit dict in the source). -/
structure BusinessResponse where
  id : Nat
  name : String
  mobile : String
  logo_image : Option String
  created_by : Nat
  updated_by : Nat
  created_at : String
  updated_at : String
  deriving Repr, DecidableEq

/-- Result of the get_business endpoint. -/
inductive GetResult where
  | ok (r : BusinessResponse)
  | err (status : Nat) (detail : String)
  deriving Repr, DecidableEq

/-- The get_business handler.  `if business.logo_image:` is Python
truthiness: both a NULL column and empty bytes take the None branch. -/
def get_business (business_id : Nat) (db : DB) : GetResult :=
  match findBusinessById business_id db.businesses with
  | none => GetResult.err 404 ("Business not found")
  | some b =>
    let logoB64 : Option String :=
      match b.logo_image with
      | some bs => if bs.isEmpty then none else some (b64encode bs)
      | none => none
    GetResult.ok
      { id := b.id
        name := b.name
        mobile := b.mobile
        logo_image := logoB64
        created_by := b.created_by
        updated_by := b.updated_by
        created_at := b.created_at.isoformat
        updated_at := b.updated_at.isoformat }

/-- One element of the list endpoints' output: every non-underscore
attribute of the row, datetimes isoformatted, the logo base64-encoded
when the column is not None (an `is not None` check here, unlike
get_business), plus the owner's email. -/
structure SerializedBusiness where
  id : Nat
  name : String
  mobile : String
  logo_image : Option String
  business_owner : Nat
  created_by : Nat
  updated_by : Nat
  created_at : String
  updated_at : String
  owner_email : String
  deriving Repr, DecidableEq

/-- serialize_business_with_owner from the source. -/
def serialize_business_with_owner (b : Business) (owner_email : String) :
    SerializedBusiness :=
  { id := b.id
    name := b.name
    mobile := b.mobile
    logo_image := b.logo_image.map b64encode
    business_owner := b.business_owner
    created_by := b.created_by
    updated_by := b.updated_by
    created_at := b.created_at.isoformat
    updated_at := b.updated_at.isoformat
    owner_email := owner_email }

/-- Result of the two list endpoints. -/
inductive ListResult where
  | ok (businesses : List SerializedBusiness)
  | err (status : Nat) (detail : String)
  deriving Repr, DecidableEq

/-- db.query(Business, User.email).join(User, Business.business_owner ==
User.id): each business paired with its owner's email, businesses whose
owner id matches no user dropped by the inner join. -/
def joinOwners (db : DB) : List (Business × String) :=
  db.businesses.filterMap (fun b =>
    (findUserById b.business_owner db.users).map (fun u => (b, u.email)))

/-- The get_all_businesses handler: join, offset, limit, 404 on empty. -/
def get_all_businesses (skip limit : Nat) (db : DB) : ListResult :=
  let rows := ((joinOwners db).drop skip).take limit
  if rows.isEmpty then ListResult.err 404 ("No businesses found")
  else ListResult.ok
    (rows.map (fun p => serialize_business_with_owner p.1 p.2))

/-- The get_my_businesses handler: join, filter by the caller's id,
offset, limit, 404 on empty. -/
def get_my_businesses (skip limit : Nat) (db : DB) (cu : CurrentUser) :
    ListResult :=
  let rows :=
    (((joinOwners db).filter (fun p => p.1.business_owner == cu.id)).drop
      skip).take limit
  if rows.isEmpty then
    ListResult.err 404 ("No businesses found for the current user")
  else ListResult.ok
    (rows.map (fun p => serialize_business_with_owner p.1 p.2))

/-- Result of the delete_business endpoint. -/
inductive DeleteResult where
  | ok (message : String) (business_id : Nat)
  | err (status : Nat) (detail : String)
  deriving Repr, DecidableEq

/-- The delete_business handler: 404 if the row is absent, 403 if the
caller's role is not t_admin, else hard-delete the row and confirm.
db.delete issues DELETE WHERE id = business_id. -/
def delete_business (business_id : Nat) (db : DB) (cu : CurrentUser) :
    DeleteResult × DB :=
  match findBusinessById business_id db.businesses with
  | none => (DeleteResult.err 404 ("Business not found"), db)
  | some _ =>
    if cu.role != "t_admin" then
      (DeleteResult.err 403 ("Not authorized to delete this business"), db)
    else
      (DeleteResult.ok ("Business deleted successfully") business_id,
       { db with businesses :=
           db.businesses.filter (fun b => b.id != business_id) })

/-- Bool guard for an in-limit upload: absent, or at most 5 MiB. -/
def logoSizeOk : Option (List Nat) → Bool
  | none => true
  | some bs => bs.length ≤ 5 * 1024 * 1024

/-! Concrete instances used by witnesses and counterexamples. -/

def exCU : CurrentUser := ⟨1, "t_admin"⟩

def exNow : PyDatetime := ⟨2024, 1, 2, 3, 4, 5, 0⟩

def exDB0 : DB := ⟨[], [], 1, 1⟩

def cBD : BusinessData := ⟨"Acme", "123"⟩

def cUD : UserData := ⟨"a@b.c", "pw", none⟩

def bigLogo : List Nat := List.replicate (5 * 1024 * 1024 + 1) 0

def exU : User := ⟨1, "o@x.c", "pw", "t_admin", 0, 0⟩

def exBiz : Business := ⟨1, "Acme", "123", none, 1, 1, 1, exNow, exNow⟩

def exDB2 : DB := ⟨[exU], [exBiz], 2, 2⟩

def cBD2 : BusinessData := ⟨"Acme", "999"⟩

def cUD2 : UserData := ⟨"o@x.c", "pw", some ("t_admin")⟩

def c7Biz : Business := ⟨1, "Acme", "123", some [], 1, 1, 1, exNow, exNow⟩

def c7DB : DB := ⟨[exU], [c7Biz], 2, 2⟩

def u5a : User := ⟨1, "a@x.c", "pw", "t_customer", 0, 0⟩

def u5b : User := ⟨2, "b@x.c", "pw", "t_customer", 0, 0⟩

def biz5a : Business := ⟨1, "A1", "111", none, 1, 0, 0, exNow, exNow⟩

def biz5b : Business := ⟨2, "B1", "222", none, 2, 0, 0, exNow, exNow⟩

def exDB5 : DB := ⟨[u5a, u5b], [biz5a, biz5b], 3, 3⟩

def cu5 : CurrentUser := ⟨1, "t_customer"⟩

def c5List : List SerializedBusiness :=
  [serialize_business_with_owner biz5a ("a@x.c")]

def c9U : User := ⟨1, "a@b.c", "pw", "t_customer", 1, 1⟩

def c7Resp : BusinessResponse :=
  ⟨1, "Acme", "123", none, 1, 1, "2024-01-02T03:04:05",
    "2024-01-02T03:04:05"⟩

def c7wBiz : Business := ⟨1, "Acme", "123", some [72, 105], 1, 1, 1, exNow, exNow⟩

def c7wDB : DB := ⟨[exU], [c7wBiz], 2, 2⟩

/-- The response record get_business builds for a found row: encodings of
the stored fields, with the Python-truthiness logo branch. -/
def businessToResponse (b : Business) : BusinessResponse :=
  { id := b.id
    name := b.name
    mobile := b.mobile
    logo_image :=
      match b.logo_image with
      | some bs => if bs.isEmpty then none else some (b64encode bs)
      | none => none
    created_by := b.created_by
    updated_by := b.updated_by
    created_at := b.created_at.isoformat
    updated_at := b.updated_at.isoformat }

/-! Helper lemmas. -/

/-- After filtering out every row with the given id, a lookup by that id
finds nothing. -/
lemma findBusinessById_filter_ne (bid : Nat) (l : List Business) :
    findBusinessById bid (l.filter (fun b => b.id != bid)) = none := by
  simp only [findBusinessById]
  refine List.find?_eq_none.mpr ?_
  intro b hb
  simp only [List.mem_filter, bne_iff_ne, ne_eq] at hb
  simpa using hb.2

/-- With pairwise-distinct ids, looking up a member row's id finds that
row. -/
lemma find_id_of_nodup (l : List Business) (b : Business)
    (hmem : b ∈ l) (hnodup : (l.map Business.id).Nodup) :
    findBusinessById b.id l = some b := by
  induction l with
  | nil => cases hmem
  | cons a t ih =>
    simp only [List.map_cons, List.nodup_cons] at hnodup
    rcases List.mem_cons.mp hmem with h | hmt
    · subst h
      simp [findBusinessById, List.find?]
    · have hne : (a.id == b.id) = false := by
        refine beq_eq_false_iff_ne.mpr ?_
        intro h
        exact hnodup.1 (h ▸ List.mem_map_of_mem Business.id hmt)
      have ht := ih hmt hnodup.2
      simp only [findBusinessById] at ht ⊢
      simpa [List.find?, hne] using ht

/-- Step 1 with an unseen email commits a fresh user row; no later step
of create_business touches the users table, on any control path. -/
lemma users_after_create_new (bd : BusinessData) (ud : UserData)
    (logo : Option (List Nat)) (db : DB) (cu : CurrentUser)
    (now : PyDatetime)
    (hu : findUserByEmail ud.email db.users = none) :
    (create_business (some bd) (some ud) logo db cu now).2.users =
      db.users ++ [{ id := db.nextUserId, email := ud.email,
                     password := ud.password, role := "t_customer",
                     created_by := cu.id, updated_by := cu.id }] := by
  cases logo <;>
    simp only [create_business, hu, commitBusiness] <;>
    split <;> (try split) <;> rfl

/-- Step 1 with a seen email reuses the row; the users table is unchanged
on every control path. -/
lemma users_after_create_found (bd : BusinessData) (ud : UserData)
    (logo : Option (List Nat)) (db : DB) (cu : CurrentUser)
    (now : PyDatetime) (u : User)
    (hu : findUserByEmail ud.email db.users = some u) :
    (create_business (some bd) (some ud) logo db cu now).2.users =
      db.users := by
  cases logo <;>
    simp only [create_business, hu, commitBusiness] <;>
    split <;> (try split) <;> rfl

/-- Full result of a successful create_business when the email is unseen:
fresh user, fresh business owned by that user, both ids returned. -/
lemma create_business_new_user (bd : BusinessData) (ud : UserData)
    (logo : Option (List Nat)) (db : DB) (cu : CurrentUser)
    (now : PyDatetime)
    (hu : findUserByEmail ud.email db.users = none)
    (hb : findBusinessByName bd.name db.businesses = none)
    (hl : logoSizeOk logo = true) :
    create_business (some bd) (some ud) logo db cu now =
      (CBResult.ok db.nextBusinessId db.nextUserId,
       { users := db.users ++ [{ id := db.nextUserId, email := ud.email,
                                 password := ud.password,
                                 role := "t_customer",
                                 created_by := cu.id,
                                 updated_by := cu.id }],
         businesses := db.businesses ++
           [{ id := db.nextBusinessId, name := bd.name, mobile := bd.mobile,
              logo_image := logo, business_owner := db.nextUserId,
              created_by := cu.id, updated_by := cu.id,
              created_at := now, updated_at := now }],
         nextUserId := db.nextUserId + 1,
         nextBusinessId := db.nextBusinessId + 1 }) := by
  cases logo with
  | none => simp [create_business, hu, hb, commitBusiness]
  | some bs =>
    have hlen : ¬ (bs.length > 5 * 1024 * 1024) := by
      simpa [logoSizeOk, Nat.not_lt] using hl
    simp [create_business, hu, hb, hlen, commitBusiness]

/-- Full result of a successful create_business when the email matches an
existing user: no user row added, business owned by the existing id. -/
lemma create_business_existing_user (bd : BusinessData) (ud : UserData)
    (logo : Option (List Nat)) (db : DB) (cu : CurrentUser)
    (now : PyDatetime) (u : User)
    (hu : findUserByEmail ud.email db.users = some u)
    (hb : findBusinessByName bd.name db.businesses = none)
    (hl : logoSizeOk logo = true) :
    create_business (some bd) (some ud) logo db cu now =
      (CBResult.ok db.nextBusinessId u.id,
       { users := db.users,
         businesses := db.businesses ++
           [{ id := db.nextBusinessId, name := bd.name, mobile := bd.mobile,
              logo_image := logo, business_owner := u.id,
              created_by := cu.id, updated_by := cu.id,
              created_at := now, updated_at := now }],
         nextUserId := db.nextUserId,
         nextBusinessId := db.nextBusinessId + 1 }) := by
  cases logo with
  | none => simp [create_business, hu, hb, commitBusiness]
  | some bs =>
    have hlen : ¬ (bs.length > 5 * 1024 * 1024) := by
      simpa [logoSizeOk, Nat.not_lt] using hl
    simp [create_business, hu, hb, hlen, commitBusiness]

/-! Claim theorems. -/

/-- C2: a create_business request whose business name matches an
already-persisted business creates no new business row, but — contrary to
the claim and the spec — the response status is 500, not 400: the inner
HTTPException(400) is caught by the surrounding `except Exception` and
re-raised as a 500 whose detail wraps the original message.  Evaluated at
a concrete database holding a business named Acme. -/
theorem C2_duplicate_name_behavior :
    (create_business (some cBD2) (some cUD2) none exDB2 exCU exNow).1 =
      CBResult.err 500
        ("Error checking business: 400: Business with this name already exists") ∧
    (create_business (some cBD2) (some cUD2) none exDB2 exCU exNow).2.businesses =
      exDB2.businesses :=
  ⟨rfl, rfl⟩

/-- C8: under the precondition established by the role_required("t_admin")
dependency — the caller's role equals "t_admin" — the inner 403 branch of
delete_business can never produce the response: the handler's result is
never a 403 error. -/
theorem C8_inner_403_unreachable (bid : Nat) (db : DB) (cu : CurrentUser)
    (h : cu.role = "t_admin") :
    ∀ d, (delete_business bid db cu).1 ≠ DeleteResult.err 403 d := by
  intro d heq
  simp only [delete_business] at heq
  cases hf : findBusinessById bid db.businesses <;> rw [hf] at heq <;>
    simp [h] at heq

/-- Witness for C8 at a concrete admin caller and database. -/
theorem C8_witness :
    exCU.role = "t_admin" ∧
    (delete_business 1 exDB2 exCU).1 ≠
      DeleteResult.err 403 ("Not authorized to delete this business") :=
  ⟨rfl, C8_inner_403_unreachable 1 exDB2 exCU rfl
    ("Not authorized to delete this business")⟩

/-- C10: when the all-businesses query, respectively the my-businesses
query, matches zero rows for the given skip and limit, the endpoint
responds with a 404 error rather than an empty array. -/
theorem C10_empty_listings_404 (skip limit : Nat) (db : DB)
    (cu : CurrentUser) :
    (((joinOwners db).drop skip).take limit = [] →
      get_all_businesses skip limit db =
        ListResult.err 404 ("No businesses found")) ∧
    ((((joinOwners db).filter
        (fun p => p.1.business_owner == cu.id)).drop skip).take limit = [] →
      get_my_businesses skip limit db cu =
        ListResult.err 404 ("No businesses found for the current user")) := by
  constructor <;> intro h <;>
    simp [get_all_businesses, get_my_businesses, h]

/-- Witness for C10 on the empty database. -/
theorem C10_witness :
    ((joinOwners exDB0).drop 0).take 100 = [] ∧
    get_all_businesses 0 100 exDB0 =
      ListResult.err 404 ("No businesses found") ∧
    get_my_businesses 0 100 exDB0 exCU =
      ListResult.err 404 ("No businesses found for the current user") :=
  ⟨rfl, (C10_empty_listings_404 0 100 exDB0 exCU).1 rfl,
    (C10_empty_listings_404 0 100 exDB0 exCU).2 rfl⟩

/-- C4: fetching a business id that matches no row returns 404; and
whenever delete_business succeeds on an id, fetching that id against the
resulting database state also returns 404. -/
theorem C4_fetch_after_delete (db : DB) (bid : Nat) (cu : CurrentUser) :
    (findBusinessById bid db.businesses = none →
      get_business bid db = GetResult.err 404 ("Business not found")) ∧
    (∀ msg, (delete_business bid db cu).1 = DeleteResult.ok msg bid →
      get_business bid (delete_business bid db cu).2 =
        GetResult.err 404 ("Business not found")) := by
  constructor
  · intro h
    simp [get_business, h]
  · intro msg hok
    simp only [delete_business] at hok ⊢
    split at hok
    · simp at hok
    · by_cases hr : (cu.role != "t_admin") = true <;> simp [hr] at hok ⊢
      simp [get_business, findBusinessById_filter_ne]

/-- C6: when create_business creates a new user (the supplied email
matches no existing user), the persisted user row's password equals the
password string from the user JSON verbatim — no hashing or salting. -/
theorem C6_password_stored_verbatim (bd : BusinessData) (ud : UserData)
    (logo : Option (List Nat)) (db : DB) (cu : CurrentUser)
    (now : PyDatetime)
    (hu : findUserByEmail ud.email db.users = none) :
    (create_business (some bd) (some ud) logo db cu now).2.users =
      db.users ++ [{ id := db.nextUserId, email := ud.email,
                     password := ud.password, role := "t_customer",
                     created_by := cu.id, updated_by := cu.id }] :=
  users_after_create_new bd ud logo db cu now hu

/-- Witness for C6 on the empty database: the stored row carries the
literal password "pw". -/
theorem C6_witness :
    findUserByEmail cUD.email exDB0.users = none ∧
    (create_business (some cBD) (some cUD) none exDB0 exCU exNow).2.users =
      exDB0.users ++ [c9U] :=
  ⟨rfl, C6_password_stored_verbatim cBD cUD none exDB0 exCU exNow rfl⟩

/-- C9: every user row present after any create_business call either
already existed or has role "t_customer"; the role value supplied in the
user JSON is never consulted, so any created row has role "t_customer"
regardless of it. -/
theorem C9_created_role_is_customer (obd : Option BusinessData)
    (oud : Option UserData) (logo : Option (List Nat)) (db : DB)
    (cu : CurrentUser) (now : PyDatetime) :
    ∀ u ∈ (create_business obd oud logo db cu now).2.users,
      u ∈ db.users ∨ u.role = "t_customer" := by
  intro u hmem
  match obd, oud with
  | none, _ => exact Or.inl hmem
  | some bd, none => exact Or.inl hmem
  | some bd, some ud =>
    cases hu : findUserByEmail ud.email db.users with
    | some v =>
      rw [users_after_create_found bd ud logo db cu now v hu] at hmem
      exact Or.inl hmem
    | none =>
      rw [users_after_create_new bd ud logo db cu now hu] at hmem
      rcases List.mem_append.mp hmem with h | h
      · exact Or.inl h
      · right
        rw [List.mem_singleton.mp h]

/-- Witness for C9: on the empty database with a user JSON whose role
field says "t_admin", the single resulting row has role "t_customer". -/
theorem C9_witness :
    c9U ∈ (create_business (some cBD)
      (some ⟨"a@b.c", "pw", some ("t_admin")⟩) none exDB0 exCU exNow).2.users ∧
    (c9U ∈ exDB0.users ∨ c9U.role = "t_customer") :=
  ⟨by simp [create_business, commitBusiness, findUserByEmail,
        findBusinessByName, exDB0, cBD, c9U, exCU, List.find?],
   C9_created_role_is_customer (some cBD)
     (some ⟨"a@b.c", "pw", some ("t_admin")⟩) none exDB0 exCU exNow c9U
     (by simp [create_business, commitBusiness, findUserByEmail,
           findBusinessByName, exDB0, cBD, c9U, exCU, List.find?])⟩

/-- C3: with well-formed JSON, an unused business name and an in-limit
logo, create_business succeeds; with an unseen email a fresh user row is
committed and both returned ids are the fresh rows' ids, while with a
seen email no user row is added and the returned user_id is the existing
row's id. -/
theorem C3_create_business_success (bd : BusinessData) (ud : UserData)
    (logo : Option (List Nat)) (db : DB) (cu : CurrentUser)
    (now : PyDatetime)
    (hb : findBusinessByName bd.name db.businesses = none)
    (hl : logoSizeOk logo = true) :
    (findUserByEmail ud.email db.users = none →
      (create_business (some bd) (some ud) logo db cu now).1 =
        CBResult.ok db.nextBusinessId db.nextUserId ∧
      (create_business (some bd) (some ud) logo db cu now).2.users =
        db.users ++ [{ id := db.nextUserId, email := ud.email,
                       password := ud.password, role := "t_customer",
                       created_by := cu.id, updated_by := cu.id }] ∧
      (create_business (some bd) (some ud) logo db cu now).2.businesses =
        db.businesses ++
          [{ id := db.nextBusinessId, name := bd.name, mobile := bd.mobile,
             logo_image := logo, business_owner := db.nextUserId,
             created_by := cu.id, updated_by := cu.id,
             created_at := now, updated_at := now }]) ∧
    (∀ u, findUserByEmail ud.email db.users = some u →
      (create_business (some bd) (some ud) logo db cu now).1 =
        CBResult.ok db.nextBusinessId u.id ∧
      (create_business (some bd) (some ud) logo db cu now).2.users =
        db.users ∧
      (create_business (some bd) (some ud) logo db cu now).2.businesses =
        db.businesses ++
          [{ id := db.nextBusinessId, name := bd.name, mobile := bd.mobile,
             logo_image := logo, business_owner := u.id,
             created_by := cu.id, updated_by := cu.id,
             created_at := now, updated_at := now }]) := by
  constructor
  · intro hu
    rw [create_business_new_user bd ud logo db cu now hu hb hl]
    exact ⟨rfl, rfl, rfl⟩
  · intro u hu
    rw [create_business_existing_user bd ud logo db cu now u hu hb hl]
    exact ⟨rfl, rfl, rfl⟩

/-- Witness for C3 on the empty database: both returned ids are 1, the
fresh rows' ids. -/
theorem C3_witness :
    findBusinessByName cBD.name exDB0.businesses = none ∧
    logoSizeOk none = true ∧
    (create_business (some cBD) (some cUD) none exDB0 exCU exNow).1 =
      CBResult.ok 1 1 :=
  ⟨rfl, rfl,
    ((C3_create_business_success cBD cUD none exDB0 exCU exNow rfl rfl).1
      rfl).1⟩

/-- C1 as stated is false: with an oversized logo the response is indeed
a 400 error and no business row is persisted, but when the email was
previously unseen a NEW USER ROW IS persisted — step 1 commits it before
the size check runs.  Refuted at the empty database with a logo of
5 MiB + 1 bytes. -/
theorem C1_counterexample :
    ¬ (∀ (bd : BusinessData) (ud : UserData) (bs : List Nat) (db : DB)
         (cu : CurrentUser) (now : PyDatetime),
        findUserByEmail ud.email db.users = none →
        bs.length > 5 * 1024 * 1024 →
        (∃ d, (create_business (some bd) (some ud) (some bs) db cu now).1 =
            CBResult.err 400 d) ∧
        (create_business (some bd) (some ud) (some bs) db cu now).2.users =
          db.users ∧
        (create_business (some bd) (some ud) (some bs) db cu now).2.businesses =
          db.businesses) := by
  intro h
  have hlen : bigLogo.length > 5 * 1024 * 1024 := by
    simp only [bigLogo, List.length_replicate]
    omega
  have husers :=
    (h cBD cUD bigLogo exDB0 exCU exNow rfl hlen).2.1
  rw [users_after_create_new cBD cUD (some bigLogo) exDB0 exCU exNow rfl]
    at husers
  simp [exDB0] at husers

/-- C1 amended: for EVERY create_business request with an unused business
name and a logo strictly larger than 5 MiB — whatever the supplied email
— the response is a 400 error and no business row is persisted; when the
email was previously unseen a fresh user row IS persisted, and when it
matches an existing user the users table is unchanged. -/
theorem C1_oversize_logo (bd : BusinessData) (ud : UserData)
    (bs : List Nat) (db : DB) (cu : CurrentUser) (now : PyDatetime)
    (hb : findBusinessByName bd.name db.businesses = none)
    (hsize : bs.length > 5 * 1024 * 1024) :
    (create_business (some bd) (some ud) (some bs) db cu now).1 =
      CBResult.err 400
        ("Error reading file: " ++ httpExcStr 400 ("File is too large")) ∧
    (create_business (some bd) (some ud) (some bs) db cu now).2.businesses =
      db.businesses ∧
    (findUserByEmail ud.email db.users = none →
      (create_business (some bd) (some ud) (some bs) db cu now).2.users =
        db.users ++ [{ id := db.nextUserId, email := ud.email,
                       password := ud.password, role := "t_customer",
                       created_by := cu.id, updated_by := cu.id }]) ∧
    (∀ u, findUserByEmail ud.email db.users = some u →
      (create_business (some bd) (some ud) (some bs) db cu now).2.users =
        db.users) := by
  refine ⟨?_, ?_,
    fun hu => users_after_create_new bd ud (some bs) db cu now hu,
    fun u hu => users_after_create_found bd ud (some bs) db cu now u hu⟩ <;>
  cases hu : findUserByEmail ud.email db.users <;>
    simp [create_business, hu, hb, hsize, commitBusiness]

/-- Witness for C1's amended statement, applied twice: at the empty
database (unseen email) and at a database already holding the email's
user (seen email); both give the 400 and leave the businesses table
unchanged. -/
theorem C1_witness :
    findBusinessByName cBD.name exDB0.businesses = none ∧
    bigLogo.length > 5 * 1024 * 1024 ∧
    (create_business (some cBD) (some cUD) (some bigLogo) exDB0 exCU
        exNow).1 =
      CBResult.err 400
        ("Error reading file: " ++ httpExcStr 400 ("File is too large")) ∧
    findBusinessByName cBD2.name exDB0.businesses = none ∧
    (create_business (some cBD2) (some cUD2) (some bigLogo)
        { exDB0 with users := [exU] } exCU exNow).2.users = [exU] :=
  ⟨rfl,
    by simp only [bigLogo, List.length_replicate]; omega,
    (C1_oversize_logo cBD cUD bigLogo exDB0 exCU exNow rfl
      (by simp only [bigLogo, List.length_replicate]; omega)).1,
    rfl,
    (C1_oversize_logo cBD2 cUD2 bigLogo { exDB0 with users := [exU] }
        exCU exNow rfl
        (by simp only [bigLogo, List.length_replicate]; omega)).2.2.2
      exU rfl⟩

/-- Witness for C4: a missing id on the empty database, and an admin
delete on a one-business database followed by a fetch of the deleted id.
-/
theorem C4_witness :
    get_business 1 exDB0 = GetResult.err 404 ("Business not found") ∧
    (delete_business 1 exDB2 exCU).1 =
      DeleteResult.ok ("Business deleted successfully") 1 ∧
    get_business 1 (delete_business 1 exDB2 exCU).2 =
      GetResult.err 404 ("Business not found") :=
  ⟨(C4_fetch_after_delete exDB0 1 exCU).1 rfl, rfl,
    (C4_fetch_after_delete exDB2 1 exCU).2
      ("Business deleted successfully") rfl⟩

/-- C5: whenever the my-businesses endpoint returns a list, every element
has business_owner equal to the caller's id, and the list is exactly the
caller-filtered join paginated by skip and limit. -/
theorem C5_my_businesses_scoped (sk lim : Nat) (db : DB)
    (cu : CurrentUser) (l : List SerializedBusiness)
    (h : get_my_businesses sk lim db cu = ListResult.ok l) :
    l = ((((joinOwners db).filter
          (fun p => p.1.business_owner == cu.id)).drop sk).take lim).map
        (fun p => serialize_business_with_owner p.1 p.2) ∧
    ∀ sb ∈ l, sb.business_owner = cu.id := by
  simp only [get_my_businesses] at h
  split at h
  · simp at h
  · rw [ListResult.ok.injEq] at h
    subst h
    refine ⟨rfl, ?_⟩
    intro sb hsb
    simp only [List.mem_map] at hsb
    obtain ⟨p, hp, hser⟩ := hsb
    have hp2 := List.mem_of_mem_drop (List.mem_of_mem_take hp)
    have hown := (List.mem_filter.mp hp2).2
    simp only [beq_iff_eq] at hown
    rw [← hser]
    simpa [serialize_business_with_owner] using hown

/-- Witness for C5: a database with two owners; caller 1 gets exactly the
one business owned by id 1. -/
theorem C5_witness :
    get_my_businesses 0 100 exDB5 cu5 = ListResult.ok c5List ∧
    ∀ sb ∈ c5List, sb.business_owner = cu5.id :=
  ⟨rfl, (C5_my_businesses_scoped 0 100 exDB5 cu5 c5List rfl).2⟩

/-- C7 as stated is false on one edge: a stored EMPTY logo (the column
holds b"", not NULL) is rendered as None, not as its base64 encoding "",
because `if business.logo_image:` is Python truthiness.  Refuted at a
database whose single business stores the empty byte string. -/
theorem C7_counterexample :
    ¬ (∀ (db : DB), ∀ b ∈ db.businesses,
        (db.businesses.map Business.id).Nodup →
        ∃ r, get_business b.id db = GetResult.ok r ∧
          r.created_at = b.created_at.isoformat ∧
          r.updated_at = b.updated_at.isoformat ∧
          (∀ bs, b.logo_image = some bs →
            r.logo_image = some (b64encode bs)) ∧
          (b.logo_image = none → r.logo_image = none)) := by
  intro h
  obtain ⟨r, hr, _, _, hsome, _⟩ :=
    h c7DB c7Biz (by simp [c7DB, c7Biz]) (by simp [c7DB, c7Biz])
  have h1 : r.logo_image = some (b64encode []) := hsome [] rfl
  have h2 : get_business c7Biz.id c7DB = GetResult.ok c7Resp := rfl
  rw [h2] at hr
  injection hr with h3
  rw [← h3] at h1
  simp [c7Resp] at h1

/-- C7 amended: fetching an existing business (ids pairwise distinct)
returns its fields, the timestamps isoformatted, the logo base64-encoded
when a NONEMPTY logo is stored, and None when the stored logo is NULL or
the empty byte string. -/
theorem C7_get_business_fields (db : DB) (b : Business)
    (hmem : b ∈ db.businesses)
    (hnodup : (db.businesses.map Business.id).Nodup) :
    ∃ r, get_business b.id db = GetResult.ok r ∧
      r.id = b.id ∧ r.name = b.name ∧ r.mobile = b.mobile ∧
      r.created_by = b.created_by ∧ r.updated_by = b.updated_by ∧
      r.created_at = b.created_at.isoformat ∧
      r.updated_at = b.updated_at.isoformat ∧
      (∀ bs, b.logo_image = some bs → bs ≠ [] →
        r.logo_image = some (b64encode bs)) ∧
      ((b.logo_image = none ∨ b.logo_image = some []) →
        r.logo_image = none) := by
  have hf := find_id_of_nodup db.businesses b hmem hnodup
  refine ⟨businessToResponse b, ?_, rfl, rfl, rfl, rfl, rfl, rfl, rfl,
    ?_, ?_⟩
  · simp [get_business, hf, businessToResponse]
  · intro bs hbs hne
    simp only [businessToResponse, hbs]
    cases bs with
    | nil => exact absurd rfl hne
    | cons a t => rfl
  · intro hcase
    rcases hcase with hnil | hempty
    · simp only [businessToResponse, hnil]
    · simp only [businessToResponse, hempty]
      rfl

/-- Witness for C7's amended statement: a stored two-byte logo comes back
as its base64 encoding. -/
theorem C7_witness :
    c7wBiz ∈ c7wDB.businesses ∧
    (c7wDB.businesses.map Business.id).Nodup ∧
    ∃ r, get_business c7wBiz.id c7wDB = GetResult.ok r ∧
      r.id = c7wBiz.id ∧ r.name = c7wBiz.name ∧
      r.mobile = c7wBiz.mobile ∧
      r.created_by = c7wBiz.created_by ∧
      r.updated_by = c7wBiz.updated_by ∧
      r.created_at = c7wBiz.created_at.isoformat ∧
      r.updated_at = c7wBiz.updated_at.isoformat ∧
      (∀ bs, c7wBiz.logo_image = some bs → bs ≠ [] →
        r.logo_image = some (b64encode bs)) ∧
      ((c7wBiz.logo_image = none ∨ c7wBiz.logo_image = some []) →
        r.logo_image = none) :=
  ⟨by simp [c7wDB, c7wBiz], by simp [c7wDB, c7wBiz],
    C7_get_business_fields c7wDB c7wBiz (by simp [c7wDB, c7wBiz])
      (by simp [c7wDB, c7wBiz])⟩

end BottleCrush
